import Mathlib

/-!
broadcasthepopcorn: request handlers, startup and shutdown.

A shallow embedding of `broadcasthepopcorn.go` and `settings.go`.

The handlers are ordinary Go functions that talk to collaborators whose code
is not part of the two source files (`PTPSearch`, `PTPGet`, `Cache`, the
template engine, the file system).  Those collaborators are taken as
parameters (`Env`): each one is a function on an arbitrary world type `σ`,
so a theorem about a handler holds for every possible behaviour of the
collaborators.  Every collaborator call is appended to a ghost `trace`, which
is what the temporal statements talk about.  A Go run-time panic is an
explicit outcome.
-/

namespace Broadcasthepopcorn

/-! ## Basic data -/

/-- A Go `error` value, identified with its message. -/
abbrev GoError := String

/-- A Go `[]byte`. -/
abbrev Bytes := List Nat

/-- The Go type `map[string][]string` (`url.Values`); the nil map is `[]`. -/
abbrev Values := List (String × List String)

/-- Map indexing `m[k]`: the stored slice, or the nil slice when `k` is absent. -/
def Values.index (m : Values) (k : String) : List String :=
  match m with
  | [] => []
  | (k', vs) :: rest => if k' = k then vs else Values.index rest k

/-- The part of `*http.Request` the handlers look at: what `r.ParseForm()`
leaves in `r.Form` and the error it returns. -/
structure Request where
  Form : Values
  ParseFormErr : Option GoError
deriving DecidableEq, Repr

/-- The struct `appError`. -/
structure appError where
  Error : GoError
  Message : String
deriving DecidableEq, Repr

/-- The `http.ResponseWriter`: the header map and the sequence of `Write` calls. -/
structure ResponseWriter where
  header : List (String × String)
  writes : List Bytes
deriving DecidableEq, Repr

/-- The call `w.Header().Set(k, v)`. -/
def ResponseWriter.HeaderSet (w : ResponseWriter) (k v : String) : ResponseWriter :=
  { w with header := (k, v) :: w.header.filter (fun p => p.1 != k) }

/-- The call `w.Write(b)`. -/
def ResponseWriter.Write (w : ResponseWriter) (b : Bytes) : ResponseWriter :=
  { w with writes := w.writes ++ [b] }

/-- The struct `JSONSettings`, inner struct `PTP.Settings`. -/
structure PTPPrefs where
  MovieSource : String
  MovieResolution : String
deriving DecidableEq, Repr

/-- The struct `JSONSettings`, inner struct `PTP`. -/
structure PTPSettings where
  Username : String
  Password : String
  Passkey : String
  Settings : PTPPrefs
deriving DecidableEq, Repr

/-- The struct `JSONSettings`. -/
structure JSONSettings where
  CacheDir : String
  Database : String
  PTP : PTPSettings
deriving DecidableEq, Repr

/-- The zero value of `JSONSettings` (`var settings JSONSettings`). -/
def JSONSettings.zero : JSONSettings :=
  { CacheDir := "", Database := "",
    PTP := { Username := "", Password := "", Passkey := "",
             Settings := { MovieSource := "", MovieResolution := "" } } }

/-- The value a Go panic carries. -/
inductive PanicVal where
  | indexOutOfRange (index len : Nat)
  | str (s : String)
  | err (e : GoError)
deriving DecidableEq, Repr

/-- How a Go function call ends: it returns a value, or it panics; either way
the state reached is kept. -/
inductive Outcome (α S : Type) where
  | returned (val : α) (s : S)
  | panicked (p : PanicVal) (s : S)
deriving DecidableEq, Repr

/-- The state in which the call ended. -/
def Outcome.state {α S : Type} : Outcome α S → S
  | .returned _ s => s
  | .panicked _ s => s

/-- The value returned, if the call returned. -/
def Outcome.result {α S : Type} : Outcome α S → Option α
  | .returned a _ => some a
  | .panicked _ _ => none

/-- The panic value, if the call panicked. -/
def Outcome.panic {α S : Type} : Outcome α S → Option PanicVal
  | .returned _ _ => none
  | .panicked p _ => some p

/-! ## Collaborators and process state -/

/-- One entry of the ghost trace: a call the program makes to a collaborator. -/
inductive Event (Jar G : Type) where
  | readFile (path : String)
  | fmtPrintln (s : String)
  | logPrintln (s : String)
  | logPrint (s : String)
  | newPTPSearch (username password passkey source resolution : String)
  | newImageCache (dir : String)
  | checkLogin
  | login
  | get (imdbID : String)
  | newPTPGet (jar : Jar) (dir id authkey passkey : String)
  | download (g : G)
  | cacheGet (url : String)
  | parseGlob (name pattern : String)
  | execute (name : String)
  | removeAll (path : String)
deriving DecidableEq, Repr

/-- The collaborators the two source files call.  `σ` is everything outside
the handlers (the globals `ptp_search` and `cache`, tracker, disk), `Jar` the
type of `ptp_search.Cookiejar`, `G` the type `PTPGet`.  `settingsCachedir` is
the selector `s.Cachedir` of `init`: `JSONSettings` declares no field of that
name (its cache-directory field is spelled `CacheDir`), so what the selector
yields is left open. -/
structure Env (σ Jar G : Type) where
  settingsCachedir : JSONSettings → String
  ReadFile : String → σ → (Bytes × Option GoError) × σ
  Unmarshal : Bytes → JSONSettings → JSONSettings × Option GoError
  NewPTPSearch : String → String → String → String → String → σ → σ
  NewImageCache : String → σ → σ
  Login : σ → Option GoError × σ
  CheckLogin : σ → (Bool × Option GoError) × σ
  Get : String → σ → (Bytes × Option GoError) × σ
  Cookiejar : σ → Jar
  NewPTPGet : Jar → String → String → String → String → G
  Download : G → σ → Option GoError × σ
  cacheGet : String → σ → (Bytes × Option GoError) × σ
  ParseGlob : String → String → σ → Option GoError × σ
  Execute : String → σ → (List Bytes × Option GoError) × σ
  RemoveAll : String → σ → Option GoError × σ

/-- The process state: the global `Cachedir`, the world of the collaborators,
and the ghost trace of collaborator calls. -/
structure State (σ Jar G : Type) where
  Cachedir : String
  world : σ
  trace : List (Event Jar G)

/-- Record a collaborator call and the world it leaves. -/
def State.call {σ Jar G : Type} (st : State σ Jar G) (e : Event Jar G) (world : σ) :
    State σ Jar G :=
  { st with world := world, trace := st.trace ++ [e] }

/-- Record output that leaves the world as it is (`fmt.Println`, `log.Println`). -/
def State.log {σ Jar G : Type} (st : State σ Jar G) (e : Event Jar G) : State σ Jar G :=
  { st with trace := st.trace ++ [e] }

/-- The collaborator calls made between `st` and the later state `st'`. -/
def newEvents {σ Jar G : Type} (st st' : State σ Jar G) : List (Event Jar G) :=
  st'.trace.drop st.trace.length

/-! ## broadcasthepopcorn.go -/

/-- The function `jsonResult`: `fmt.Sprintf("{\"Result\":\"%s\"}", s)`. -/
def jsonResult (s : String) : String :=
  "\x7b\"Result\":\"" ++ s ++ "\"\x7d"

/-- The function `checkQuery`. -/
def checkQuery (r : Request) : Values × Option GoError :=
  match r.ParseFormErr with
  | some err => ([], some err)
  | none =>
    if r.Form.length = 0 then
      ([], some "No URL arguments passed.")
    else
      (r.Form, none)

section Handlers

variable {σ Jar G : Type}

/-- What a handler leaves behind: the response writer and the process state. -/
abbrev HState (σ Jar G : Type) := ResponseWriter × State σ Jar G

/-- The tail of `ptp_search_view` (source lines 105-110), reached when the
session is logged in or the login succeeded. -/
def ptp_search_view_tail (env : Env σ Jar G) (w : ResponseWriter) (imdbID : String)
    (st : State σ Jar G) : Outcome (Option appError) (HState σ Jar G) :=
  let ((json, err), world) := env.Get imdbID st.world
  let st := st.call (.get imdbID) world
  match err with
  | some err =>
    .returned (some ⟨err, jsonResult "Could not retrieve movie information."⟩) (w, st)
  | none => .returned none (w.Write json, st)

/-- The function `ptp_search_view`. -/
def ptp_search_view (env : Env σ Jar G) (w : ResponseWriter) (r : Request)
    (st : State σ Jar G) : Outcome (Option appError) (HState σ Jar G) :=
  let w := w.HeaderSet "Content-Type" "application/json"
  let (query, err) := checkQuery r
  match (query.index "imdbID").head? with
  | none => .panicked (.indexOutOfRange 0 (query.index "imdbID").length) (w, st)
  | some imdbID =>
    match err with
    | some err => .returned (some ⟨err, jsonResult "No URL argument passed."⟩) (w, st)
    | none =>
      let ((logged_in, _), world) := env.CheckLogin st.world
      let st := st.call .checkLogin world
      if logged_in == false then
        let (err, world) := env.Login st.world
        let st := st.call .login world
        match err with
        | some err => .returned (some ⟨err, jsonResult "Could not login to PTP."⟩) (w, st)
        | none => ptp_search_view_tail env w imdbID st
      else
        ptp_search_view_tail env w imdbID st

/-- The function `ptp_get_view`.  The arguments of `NewPTPGet` are evaluated
left to right; indexing an empty slice panics. -/
def ptp_get_view (env : Env σ Jar G) (w : ResponseWriter) (r : Request)
    (st : State σ Jar G) : Outcome (Option appError) (HState σ Jar G) :=
  let w := w.HeaderSet "Content-Type" "application/json"
  let (query, err) := checkQuery r
  match err with
  | some err => .returned (some ⟨err, jsonResult "No URL arguments passed."⟩) (w, st)
  | none =>
    let jar := env.Cookiejar st.world
    match (query.index "id").head? with
    | none => .panicked (.indexOutOfRange 0 (query.index "id").length) (w, st)
    | some id =>
      match (query.index "authkey").head? with
      | none => .panicked (.indexOutOfRange 0 (query.index "authkey").length) (w, st)
      | some authkey =>
        match (query.index "passkey").head? with
        | none => .panicked (.indexOutOfRange 0 (query.index "passkey").length) (w, st)
        | some passkey =>
          let ptp_get := env.NewPTPGet jar st.Cachedir id authkey passkey
          let st := st.log (.newPTPGet jar st.Cachedir id authkey passkey)
          let (err, world) := env.Download ptp_get st.world
          let st := st.call (.download ptp_get) world
          match err with
          | some err => .returned (some ⟨err, jsonResult "Could not download torrent."⟩) (w, st)
          | none => .returned none (w, st)

/-- The function `image_view`. -/
def image_view (env : Env σ Jar G) (w : ResponseWriter) (r : Request)
    (st : State σ Jar G) : Outcome (Option appError) (HState σ Jar G) :=
  let (query, err) := checkQuery r
  match (query.index "url").head? with
  | none => .panicked (.indexOutOfRange 0 (query.index "url").length) (w, st)
  | some url =>
    match err with
    | some err => .returned (some ⟨err, jsonResult "No URL arguments passed."⟩) (w, st)
    | none =>
      let ((i, err), world) := env.cacheGet url st.world
      let st := st.call (.cacheGet url) world
      match err with
      | some err => .returned (some ⟨err, jsonResult "Could not cache image."⟩) (w, st)
      | none => .returned none (w.Write i, st)

/-- The function `viewTemplate`.  After the error check `template.Must(parse, err)`
is called with a nil error and hands back `parse`. -/
def viewTemplate (env : Env σ Jar G) (filename : String) (w : ResponseWriter)
    (st : State σ Jar G) : Outcome (Option appError) (HState σ Jar G) :=
  let (err, world) := env.ParseGlob filename "templates/*.html" st.world
  let st := st.call (.parseGlob filename "templates/*.html") world
  match err with
  | some err => .returned (some ⟨err, jsonResult "Template files not found."⟩) (w, st)
  | none =>
    let ((out, err), world) := env.Execute filename st.world
    let st := st.call (.execute filename) world
    let w := { w with writes := w.writes ++ out }
    match err with
    | some err => .returned (some ⟨err, jsonResult "Could not load templates."⟩) (w, st)
    | none => .returned none (w, st)

/-- The function `index_view`. -/
def index_view (env : Env σ Jar G) (w : ResponseWriter) (_r : Request)
    (st : State σ Jar G) : Outcome (Option appError) (HState σ Jar G) :=
  viewTemplate env "index.html" w st

/-- The function `movies_view`. -/
def movies_view (env : Env σ Jar G) (w : ResponseWriter) (_r : Request)
    (st : State σ Jar G) : Outcome (Option appError) (HState σ Jar G) :=
  viewTemplate env "movies.html" w st

/-- The type `appHandler`. -/
abbrev appHandler (σ Jar G : Type) :=
  ResponseWriter → Request → State σ Jar G → Outcome (Option appError) (HState σ Jar G)

/-- The conversion `[]byte(s)`. -/
def bytesOfString (s : String) : Bytes := s.toUTF8.toList.map UInt8.toNat

/-- The method `appHandler.ServeHTTP`. -/
def ServeHTTP (fn : appHandler σ Jar G) (w : ResponseWriter) (r : Request)
    (st : State σ Jar G) : Outcome Unit (HState σ Jar G) :=
  match fn w r st with
  | .panicked p s => .panicked p s
  | .returned none s => .returned () s
  | .returned (some e) (w, st) =>
    let st := st.log (.logPrintln e.Error)
    let w := w.HeaderSet "Content-Type" "application/json"
    .returned () (w.Write (bytesOfString e.Message), st)

/-! ## settings.go -/

/-- The function `NewJSONSettings`. -/
def NewJSONSettings (env : Env σ Jar G) (st : State σ Jar G) :
    (JSONSettings × Option GoError) × State σ Jar G :=
  let settings := JSONSettings.zero
  let ((b, err), world) := env.ReadFile "./settings.json" st.world
  let st := st.call (.readFile "./settings.json") world
  match err with
  | some err => ((settings, some err), st.log (.fmtPrintln err))
  | none =>
    let (settings, err) := env.Unmarshal b settings
    match err with
    | some err => ((settings, some err), st.log (.fmtPrintln err))
    | none => ((settings, none), st)

/-! ## Startup and shutdown -/

/-- The function `init`.  Line 42 reads `s.Cachedir`, a field `JSONSettings`
does not declare; the read is the parameter `env.settingsCachedir`. -/
def init (env : Env σ Jar G) (st : State σ Jar G) : Outcome Unit (State σ Jar G) :=
  let ((s, err), st) := NewJSONSettings env st
  let st := { st with Cachedir := env.settingsCachedir s }
  match err with
  | some _ => .panicked (.str "Your settings.json file is not configured properly.") st
  | none =>
    let st := st.call
      (.newPTPSearch s.PTP.Username s.PTP.Password s.PTP.Passkey
        s.PTP.Settings.MovieSource s.PTP.Settings.MovieResolution)
      (env.NewPTPSearch s.PTP.Username s.PTP.Password s.PTP.Passkey
        s.PTP.Settings.MovieSource s.PTP.Settings.MovieResolution st.world)
    let st := st.call (.newImageCache st.Cachedir) (env.NewImageCache st.Cachedir st.world)
    let (err, world) := env.Login st.world
    let st := st.call .login world
    match err with
    | some err => .panicked (.err err) st
    | none => .returned () st

/-- The signals `watch` registers for. -/
inductive Signal where
  | interrupt
  | sigterm
deriving DecidableEq, Repr

/-- How `watch` ends: it waits on the channel for ever, the process exits with
a status, or the function returns to its caller. -/
inductive WatchOutcome (S : Type) where
  | blocked (s : S)
  | exited (status : Nat) (s : S)
  | returned (s : S)
deriving DecidableEq, Repr

/-- The state in which `watch` ended. -/
def WatchOutcome.state {S : Type} : WatchOutcome S → S
  | .blocked s => s
  | .exited _ s => s
  | .returned s => s

/-- The library call `log.Fatal(v)`: `log.Print(v)` followed by `os.Exit(1)`. -/
def logFatal (v : GoError) (st : State σ Jar G) : WatchOutcome (State σ Jar G) :=
  .exited 1 (st.log (.logPrint v))

/-- The function `watch`; `sig` is the signal delivered on the channel `c`,
`none` when no registered signal ever arrives. -/
def watch (env : Env σ Jar G) (sig : Option Signal) (st : State σ Jar G) :
    WatchOutcome (State σ Jar G) :=
  match sig with
  | none => .blocked st
  | some _ =>
    let (err, world) := env.RemoveAll st.Cachedir st.world
    let st := st.call (.removeAll st.Cachedir) world
    match err with
    | some err => logFatal err st
    | none => .exited 0 (st.log (.logPrintln "Successfully closed."))

/-- A request routed by `main` to one of the five dynamic handlers. -/
inductive Call where
  | index (r : Request)
  | movies (r : Request)
  | ptp_search (r : Request)
  | ptp_get (r : Request)
  | image (r : Request)
deriving DecidableEq, Repr

/-- A response writer nothing has been written to. -/
def ResponseWriter.fresh : ResponseWriter := { header := [], writes := [] }

/-- The routes set up in `main`: each call runs its handler under `ServeHTTP`
with a fresh response writer. -/
def serve (env : Env σ Jar G) (c : Call) (st : State σ Jar G) :
    Outcome Unit (HState σ Jar G) :=
  match c with
  | .index r => ServeHTTP (index_view env) ResponseWriter.fresh r st
  | .movies r => ServeHTTP (movies_view env) ResponseWriter.fresh r st
  | .ptp_search r => ServeHTTP (ptp_search_view env) ResponseWriter.fresh r st
  | .ptp_get r => ServeHTTP (ptp_get_view env) ResponseWriter.fresh r st
  | .image r => ServeHTTP (image_view env) ResponseWriter.fresh r st

/-- The process state after a sequence of requests has been served one after
the other (a handler that panics is recovered by the HTTP server and the
process goes on in the state reached). -/
def serveAll (env : Env σ Jar G) (cs : List Call) (st : State σ Jar G) : State σ Jar G :=
  cs.foldl (fun st c => (serve env c st).state.2) st

/-! ## Reading the trace -/

/-- The event is a call of `ptp_search.CheckLogin`. -/
def Event.isCheckLogin : Event Jar G → Bool
  | .checkLogin => true
  | _ => false

/-- The event is a call of `ptp_search.Login`. -/
def Event.isLogin : Event Jar G → Bool
  | .login => true
  | _ => false

/-- The event is a call of `ptp_search.Get`. -/
def Event.isGet : Event Jar G → Bool
  | .get _ => true
  | _ => false

/-- Every event satisfying `p` comes earlier in the trace than every event
satisfying `q`. -/
def precedesAll (p q : Event Jar G → Bool) (evs : List (Event Jar G)) : Prop :=
  ∀ i j e e', evs.get? i = some e → p e = true → evs.get? j = some e' → q e' = true → i < j

/-- The event is a call of `os.RemoveAll`. -/
def Event.isRemoveAll : Event Jar G → Bool
  | .removeAll _ => true
  | _ => false

/-- The event is a call of `NewImageCache`. -/
def Event.isNewImageCache : Event Jar G → Bool
  | .newImageCache _ => true
  | _ => false

/-- The event is a call of `NewPTPSearch`. -/
def Event.isNewPTPSearch : Event Jar G → Bool
  | .newPTPSearch _ _ _ _ _ => true
  | _ => false

/-- The event touches the tracker session: `CheckLogin`, `Login`, `Get`, or the
construction of a download client from the cookie jar. -/
def Event.isSessionOp : Event Jar G → Bool
  | .checkLogin => true
  | .login => true
  | .get _ => true
  | .newPTPGet _ _ _ _ _ => true
  | .download _ => true
  | _ => false

/-- Every directory the event is given is `d`: the cache's directory, a
download client's destination, the path removed at shutdown. -/
def Event.usesDir (d : String) : Event Jar G → Prop
  | .newImageCache dir => dir = d
  | .newPTPGet _ dir _ _ _ => dir = d
  | .removeAll path => path = d
  | _ => True

/-- The state `st'` is reached from `st` by collaborator calls that are only
ever given the directory `d`. -/
def TraceExt (d : String) (st st' : State σ Jar G) : Prop :=
  ∃ evs : List (Event Jar G), st'.trace = st.trace ++ evs ∧ ∀ e ∈ evs, e.usesDir d

/-- The exit status, if `watch` ended the process. -/
def WatchOutcome.status {S : Type} : WatchOutcome S → Option Nat
  | .exited n _ => some n
  | _ => none

end Handlers

/-! ## A concrete set of collaborators

The world is the flag "the tracker session is valid"; the cookie jar is a
string and a download client is the list of its five constructor arguments. -/

/-- Settings used by the concrete collaborators. -/
def demoSettings : JSONSettings :=
  { CacheDir := "cache", Database := "db.sqlite",
    PTP := { Username := "u", Password := "p", Passkey := "k",
             Settings := { MovieSource := "Blu-ray", MovieResolution := "1080p" } } }

/-- Concrete collaborators: `Login` succeeds exactly when `loginOK`, the other
calls fail with the error given (or succeed when it is `none`). -/
def demoEnv (loginOK : Bool) (settingsErr getErr dlErr cacheErr rmErr : Option GoError) :
    Env Bool String (List String) where
  settingsCachedir := fun _ => ""
  ReadFile := fun _ s => (([123, 125], none), s)
  Unmarshal := fun _ z => match settingsErr with
    | some e => (z, some e)
    | none => (demoSettings, none)
  NewPTPSearch := fun _ _ _ _ _ _ => false
  NewImageCache := fun _ s => s
  Login := fun _ => if loginOK then (none, true) else (some "bad credentials", false)
  CheckLogin := fun s => ((s, none), s)
  Get := fun _ s => (([1, 2, 3], getErr), s)
  Cookiejar := fun s => if s then "session=1" else ""
  NewPTPGet := fun jar dir id authkey passkey => [jar, dir, id, authkey, passkey]
  Download := fun _ s => (dlErr, s)
  cacheGet := fun _ s => (([7, 7], cacheErr), s)
  ParseGlob := fun _ _ s => (none, s)
  Execute := fun _ s => (([[60, 62]], none), s)
  RemoveAll := fun _ s => (rmErr, s)

/-- A process state with the given session flag and an empty trace. -/
def demoState (valid : Bool) : State Bool String (List String) :=
  { Cachedir := "cache", world := valid, trace := [] }

/-- A request that carries the argument `k=v` next to a pair that cannot be
unescaped (`k=v&a=%zz`): `ParseForm` keeps the valid pair in `r.Form` and
returns the decoding error. -/
def malformedRequest (k v : String) : Request :=
  { Form := [(k, [v])], ParseFormErr := some "invalid URL escape \"%zz\"" }

/-- A request with the single argument `k=v`. -/
def demoRequest (k v : String) : Request :=
  { Form := [(k, [v])], ParseFormErr := none }

/-! ## Theorems -/

section Theorems

variable {σ Jar G : Type}

theorem Values.index_ne_nil_length {m : Values} {k v : String} {vs : List String}
    (h : m.index k = v :: vs) : m.length ≠ 0 := by
  cases m with
  | nil => simp [Values.index] at h
  | cons p rest => simp

theorem checkQuery_of_arg {r : Request} {k v : String} {vs : List String}
    (hparse : r.ParseFormErr = none) (harg : r.Form.index k = v :: vs) :
    checkQuery r = (r.Form, none) := by
  have hlen := Values.index_ne_nil_length harg
  simp [checkQuery, hparse, hlen]

theorem precedesAll_login_then_get (x : String) :
    precedesAll Event.isLogin Event.isGet
      ([.checkLogin, .login, .get x] : List (Event Jar G)) := by
  intro i j e e' hi hp hj hq
  rcases i with _ | _ | _ | i <;> rcases j with _ | _ | _ | j <;> simp at hi hj <;>
    first
      | omega
      | (subst_vars; simp [Event.isLogin, Event.isGet] at hp hq)

theorem precedesAll_login_no_get :
    precedesAll Event.isLogin Event.isGet ([.checkLogin, .login] : List (Event Jar G)) := by
  intro i j e e' hi hp hj hq
  rcases i with _ | _ | i <;> rcases j with _ | _ | j <;> simp at hi hj <;>
    first
      | omega
      | (subst_vars; simp [Event.isLogin, Event.isGet] at hp hq)

/-- C1 (amended): for a request whose `ParseForm` returns no error and that
carries `imdbID`, `ptp_search_view` calls `CheckLogin` exactly once; when
`CheckLogin` reports false it calls `Login` exactly once and that call precedes every call of `Get`; when
`CheckLogin` reports true it never calls `Login`. -/
theorem ptp_search_view_login_protocol (env : Env σ Jar G) (w : ResponseWriter)
    (r : Request) (st : State σ Jar G) (imdbID : String) (rest : List String)
    (li : Bool) (ce : Option GoError) (s1 : σ)
    (hparse : r.ParseFormErr = none)
    (harg : r.Form.index "imdbID" = imdbID :: rest)
    (hcl : env.CheckLogin st.world = ((li, ce), s1)) :
    (newEvents st (ptp_search_view env w r st).state.2).countP Event.isCheckLogin = 1 ∧
    (li = false →
      (newEvents st (ptp_search_view env w r st).state.2).countP Event.isLogin = 1 ∧
      precedesAll Event.isLogin Event.isGet
        (newEvents st (ptp_search_view env w r st).state.2)) ∧
    (li = true →
      (newEvents st (ptp_search_view env w r st).state.2).countP Event.isLogin = 0) := by
  simp only [ptp_search_view, checkQuery_of_arg hparse harg, harg, List.head?_cons]
  rcases hlg : env.Login s1 with ⟨le, s2⟩
  rcases hg1 : env.Get imdbID s1 with ⟨⟨j1, ge1⟩, t1⟩
  rcases hg2 : env.Get imdbID s2 with ⟨⟨j2, ge2⟩, t2⟩
  cases li <;> cases le <;> cases ge1 <;> cases ge2 <;>
    simp [hcl, hlg, hg1, hg2, State.call, ptp_search_view_tail, newEvents, Outcome.state,
      Event.isCheckLogin, Event.isLogin, precedesAll_login_then_get,
      precedesAll_login_no_get]

/-- Witness of C1: a search for `tt0111161` on an expired session. -/
theorem ptp_search_view_login_protocol_witness :
    (demoRequest "imdbID" "tt0111161").ParseFormErr = none ∧
    (demoRequest "imdbID" "tt0111161").Form.index "imdbID" = ["tt0111161"] ∧
    (newEvents (demoState false)
      (ptp_search_view (demoEnv true none none none none none) ResponseWriter.fresh
        (demoRequest "imdbID" "tt0111161") (demoState false)).state.2).countP
          Event.isCheckLogin = 1 ∧
    (newEvents (demoState false)
      (ptp_search_view (demoEnv true none none none none none) ResponseWriter.fresh
        (demoRequest "imdbID" "tt0111161") (demoState false)).state.2).countP
          Event.isLogin = 1 :=
  ⟨rfl, by decide, (ptp_search_view_login_protocol (demoEnv true none none none none none)
      ResponseWriter.fresh (demoRequest "imdbID" "tt0111161") (demoState false)
      "tt0111161" [] false none false rfl (by decide) rfl).1,
    ((ptp_search_view_login_protocol (demoEnv true none none none none none)
      ResponseWriter.fresh (demoRequest "imdbID" "tt0111161") (demoState false)
      "tt0111161" [] false none false rfl (by decide) rfl).2.1 rfl).1⟩

/-- C2 (amended): for a request whose `ParseForm` returns no error and that
carries `imdbID`, the outcome of
`ptp_search_view` is fixed by the collaborators.  (1) `CheckLogin` false and
`Login` failing with `e`: the handler returns `appError` with `e` and the
message "Could not login to PTP.", never calls `Get`, writes nothing.
(2) Otherwise `Get` is called exactly once, with the first `imdbID` value; if
it fails with `e` the handler returns `appError` with `e` and the message
"Could not retrieve movie information." and writes nothing.  (3) Otherwise it
returns nil and its only write is the payload `Get` returned, whatever that
payload is (the empty one included). -/
theorem ptp_search_view_outcome (env : Env σ Jar G) (w : ResponseWriter)
    (r : Request) (st : State σ Jar G) (imdbID : String) (rest : List String)
    (li : Bool) (ce le ge : Option GoError) (s1 s2 s3 : σ) (json : Bytes)
    (hparse : r.ParseFormErr = none)
    (harg : r.Form.index "imdbID" = imdbID :: rest)
    (hcl : env.CheckLogin st.world = ((li, ce), s1))
    (hlg : env.Login s1 = (le, s2))
    (hget : env.Get imdbID (if li then s1 else s2) = ((json, ge), s3)) :
    (∀ e, li = false → le = some e →
      (ptp_search_view env w r st).result
          = some (some ⟨e, "\x7b\"Result\":\"Could not login to PTP.\"\x7d"⟩) ∧
      (newEvents st (ptp_search_view env w r st).state.2).countP Event.isGet = 0 ∧
      (ptp_search_view env w r st).state.1.writes = w.writes) ∧
    ((li = true ∨ le = none) →
      (newEvents st (ptp_search_view env w r st).state.2).filter Event.isGet
          = [.get imdbID] ∧
      (∀ e, ge = some e →
        (ptp_search_view env w r st).result
            = some (some ⟨e, "\x7b\"Result\":\"Could not retrieve movie information.\"\x7d"⟩) ∧
        (ptp_search_view env w r st).state.1.writes = w.writes) ∧
      (ge = none →
        (ptp_search_view env w r st).result = some none ∧
        (ptp_search_view env w r st).state.1.writes = w.writes ++ [json])) := by
  simp only [ptp_search_view, checkQuery_of_arg hparse harg, harg, List.head?_cons]
  cases li <;> cases le <;> cases ge <;>
    simp_all [State.call, ptp_search_view_tail, newEvents, Outcome.state, Outcome.result,
      Event.isGet, ResponseWriter.HeaderSet, ResponseWriter.Write, jsonResult]

/-- Witness of C2: a search on a valid session whose `Get` returns the empty
payload. -/
theorem ptp_search_view_outcome_witness :
    (ptp_search_view
      { demoEnv true none none none none none with Get := fun _ s => (([], none), s) }
      ResponseWriter.fresh (demoRequest "imdbID" "tt0111161") (demoState true)).result
        = some none ∧
    (ptp_search_view
      { demoEnv true none none none none none with Get := fun _ s => (([], none), s) }
      ResponseWriter.fresh (demoRequest "imdbID" "tt0111161") (demoState true)).state.1.writes
        = ResponseWriter.fresh.writes ++ [[]] :=
  ((ptp_search_view_outcome
      { demoEnv true none none none none none with Get := fun _ s => (([], none), s) }
      ResponseWriter.fresh (demoRequest "imdbID" "tt0111161") (demoState true)
      "tt0111161" [] true none none none true true true [] rfl (by decide) rfl rfl rfl).2
    (Or.inl rfl)).2.2 rfl

/-- C3 (the code at the failing input): on a request without any URL argument
`ptp_search_view` panics at `query["imdbID"][0]`, an index out of range on the
nil slice; it returns no `appError`, and it has called no collaborator. -/
theorem ptp_search_view_no_argument_panics (env : Env σ Jar G) (w : ResponseWriter)
    (st : State σ Jar G) :
    ptp_search_view env w { Form := [], ParseFormErr := none } st
      = .panicked (.indexOutOfRange 0 0)
          (w.HeaderSet "Content-Type" "application/json", st) := by
  simp [ptp_search_view, checkQuery, Values.index]

/-- C4 (the code at the failing input): on the download request
`id=1&authkey=a&passkey=p` the calls `ptp_get_view` makes are the construction
of the client and `Download`, nothing else: `Download` runs although no
`CheckLogin` (and no `Login`) was called in the request. -/
theorem ptp_get_view_download_without_CheckLogin (env : Env σ Jar G) (w : ResponseWriter)
    (st : State σ Jar G) :
    newEvents st (ptp_get_view env w
        { Form := [("id", ["1"]), ("authkey", ["a"]), ("passkey", ["p"])],
          ParseFormErr := none } st).state.2
      = [.newPTPGet (env.Cookiejar st.world) st.Cachedir "1" "a" "p",
         .download (env.NewPTPGet (env.Cookiejar st.world) st.Cachedir "1" "a" "p")] ∧
    (newEvents st (ptp_get_view env w
        { Form := [("id", ["1"]), ("authkey", ["a"]), ("passkey", ["p"])],
          ParseFormErr := none } st).state.2).countP Event.isCheckLogin = 0 := by
  rcases hdl : env.Download (env.NewPTPGet (env.Cookiejar st.world) st.Cachedir "1" "a" "p")
    st.world with ⟨de, s1⟩
  cases de <;>
    simp [ptp_get_view, checkQuery, Values.index, State.call, State.log, newEvents,
      Outcome.state, hdl, Event.isCheckLogin]

/-- C5 (amended): for a request whose `ParseForm` returns no error and that
carries `id`, `authkey` and `passkey`,
`ptp_get_view` builds one download client from the first value of each, the
cookie jar `ptp_search` holds when the handler starts and the global
`Cachedir`, calls `Download` once on it and calls nothing else (no `Login`:
the world is the one `Download` left, `Cachedir` is unchanged); it returns nil
exactly when `Download` returns no error, and otherwise an `appError` with
`Download`'s error and the message "Could not download torrent.". -/
theorem ptp_get_view_download (env : Env σ Jar G) (w : ResponseWriter)
    (r : Request) (st : State σ Jar G) (id authkey passkey : String)
    (ids authkeys passkeys : List String) (de : Option GoError) (s1 : σ)
    (hparse : r.ParseFormErr = none)
    (hid : r.Form.index "id" = id :: ids)
    (hauthkey : r.Form.index "authkey" = authkey :: authkeys)
    (hpasskey : r.Form.index "passkey" = passkey :: passkeys)
    (hdl : env.Download
      (env.NewPTPGet (env.Cookiejar st.world) st.Cachedir id authkey passkey) st.world
        = (de, s1)) :
    newEvents st (ptp_get_view env w r st).state.2
      = [.newPTPGet (env.Cookiejar st.world) st.Cachedir id authkey passkey,
         .download (env.NewPTPGet (env.Cookiejar st.world) st.Cachedir id authkey passkey)] ∧
    (newEvents st (ptp_get_view env w r st).state.2).countP Event.isLogin = 0 ∧
    (ptp_get_view env w r st).state.2.world = s1 ∧
    (ptp_get_view env w r st).state.2.Cachedir = st.Cachedir ∧
    ((ptp_get_view env w r st).result = some none ↔ de = none) ∧
    (∀ e, de = some e →
      (ptp_get_view env w r st).result
        = some (some ⟨e, "\x7b\"Result\":\"Could not download torrent.\"\x7d"⟩)) := by
  simp only [ptp_get_view, checkQuery_of_arg hparse hid, hid, hauthkey, hpasskey,
    List.head?_cons]
  cases de <;>
    simp [State.call, State.log, newEvents, Outcome.state, Outcome.result, hdl,
      Event.isLogin, jsonResult]

/-- Witness of C5: a download whose `Download` call fails. -/
theorem ptp_get_view_download_witness :
    (ptp_get_view (demoEnv true none none (some "403") none none) ResponseWriter.fresh
        { Form := [("id", ["7"]), ("authkey", ["a"]), ("passkey", ["p"])],
          ParseFormErr := none } (demoState true)).result
      = some (some ⟨"403", "\x7b\"Result\":\"Could not download torrent.\"\x7d"⟩) :=
  (ptp_get_view_download (demoEnv true none none (some "403") none none)
    ResponseWriter.fresh
    { Form := [("id", ["7"]), ("authkey", ["a"]), ("passkey", ["p"])],
      ParseFormErr := none } (demoState true) "7" "a" "p" [] [] [] (some "403") true
    rfl (by decide) (by decide) (by decide) rfl).2.2.2.2.2 "403" rfl

/-- C6 (amended): for a request whose `ParseForm` returns no error and that
carries `url`, `image_view` makes one
collaborator call, `cache.Get` on the first `url` value, and none on the
session; when `cache.Get` succeeds it returns nil and its only write is the
bytes `cache.Get` returned; when `cache.Get` fails with `e` it returns an
`appError` with `e` and the message "Could not cache image." and writes
nothing. -/
theorem image_view_cache_only (env : Env σ Jar G) (w : ResponseWriter)
    (r : Request) (st : State σ Jar G) (url : String) (urls : List String)
    (i : Bytes) (ce : Option GoError) (s1 : σ)
    (hparse : r.ParseFormErr = none)
    (hurl : r.Form.index "url" = url :: urls)
    (hcache : env.cacheGet url st.world = ((i, ce), s1)) :
    newEvents st (image_view env w r st).state.2 = [.cacheGet url] ∧
    (newEvents st (image_view env w r st).state.2).countP Event.isSessionOp = 0 ∧
    (image_view env w r st).state.2.world = s1 ∧
    (ce = none →
      (image_view env w r st).result = some none ∧
      (image_view env w r st).state.1.writes = w.writes ++ [i]) ∧
    (∀ e, ce = some e →
      (image_view env w r st).result
        = some (some ⟨e, "\x7b\"Result\":\"Could not cache image.\"\x7d"⟩) ∧
      (image_view env w r st).state.1.writes = w.writes) := by
  simp only [image_view, checkQuery_of_arg hparse hurl, hurl, List.head?_cons]
  cases ce <;>
    simp [State.call, newEvents, Outcome.state, Outcome.result, hcache,
      Event.isSessionOp, ResponseWriter.Write, jsonResult]

/-- Witness of C6: an image request served from the cache. -/
theorem image_view_cache_only_witness :
    (image_view (demoEnv true none none none none none) ResponseWriter.fresh
        (demoRequest "url" "http://img/p.jpg") (demoState false)).result = some none ∧
    (image_view (demoEnv true none none none none none) ResponseWriter.fresh
        (demoRequest "url" "http://img/p.jpg") (demoState false)).state.1.writes
      = ResponseWriter.fresh.writes ++ [[7, 7]] :=
  (image_view_cache_only (demoEnv true none none none none none) ResponseWriter.fresh
    (demoRequest "url" "http://img/p.jpg") (demoState false) "http://img/p.jpg" []
    [7, 7] none false rfl (by decide) rfl).2.2.2.1 rfl

/-- C8: once a registered signal is delivered, `watch` calls `os.RemoveAll`
exactly once, on `Cachedir`, and then ends the process: with status 0, after
logging "Successfully closed.", exactly when the removal returned no error;
otherwise through `log.Fatal` with the removal error, status 1.  It neither
returns nor keeps waiting. -/
theorem watch_after_signal (env : Env σ Jar G) (sig : Signal) (st : State σ Jar G)
    (re : Option GoError) (s1 : σ)
    (hrm : env.RemoveAll st.Cachedir st.world = (re, s1)) :
    (newEvents st (watch env (some sig) st).state).filter Event.isRemoveAll
      = [.removeAll st.Cachedir] ∧
    ((watch env (some sig) st).status = some 0 ↔ re = none) ∧
    (re = none →
      watch env (some sig) st = .exited 0
        { Cachedir := st.Cachedir, world := s1,
          trace := st.trace ++ [.removeAll st.Cachedir, .logPrintln "Successfully closed."] }) ∧
    (∀ e, re = some e →
      watch env (some sig) st = .exited 1
        { Cachedir := st.Cachedir, world := s1,
          trace := st.trace ++ [.removeAll st.Cachedir, .logPrint e] }) ∧
    (∀ s, watch env (some sig) st ≠ .returned s) ∧
    (∀ s, watch env (some sig) st ≠ .blocked s) := by
  cases re <;>
    simp [watch, logFatal, hrm, State.call, State.log, newEvents, WatchOutcome.state,
      WatchOutcome.status, Event.isRemoveAll]

/-- Witness of C8: SIGTERM with a removal that fails. -/
theorem watch_after_signal_witness :
    watch (demoEnv true none none none none (some "permission denied"))
        (some Signal.sigterm) (demoState true)
      = .exited 1
        { Cachedir := "cache", world := true,
          trace := [] ++ [.removeAll "cache", .logPrint "permission denied"] } :=
  (watch_after_signal (demoEnv true none none none none (some "permission denied"))
    Signal.sigterm (demoState true) (some "permission denied") true rfl).2.2.2.1
      "permission denied" rfl

theorem NewJSONSettings_err_iff (env : Env σ Jar G) (st : State σ Jar G) :
    (NewJSONSettings env st).1.2 = none ↔
      (env.ReadFile "./settings.json" st.world).1.2 = none ∧
      (env.Unmarshal (env.ReadFile "./settings.json" st.world).1.1 JSONSettings.zero).2
        = none := by
  rcases hrf : env.ReadFile "./settings.json" st.world with ⟨⟨b, re⟩, s1⟩
  rcases hum : env.Unmarshal b JSONSettings.zero with ⟨s, ue⟩
  cases re <;> cases ue <;> simp [NewJSONSettings, hrf, hum]

theorem NewJSONSettings_events (env : Env σ Jar G) (st : State σ Jar G) :
    (NewJSONSettings env st).2.Cachedir = st.Cachedir ∧
    ∃ evs : List (Event Jar G), (NewJSONSettings env st).2.trace = st.trace ++ evs ∧
      ∀ e ∈ evs, e = .readFile "./settings.json" ∨ ∃ m, e = .fmtPrintln m := by
  rcases hrf : env.ReadFile "./settings.json" st.world with ⟨⟨b, re⟩, s1⟩
  rcases hum : env.Unmarshal b JSONSettings.zero with ⟨s, ue⟩
  cases re <;> cases ue <;>
    simp [NewJSONSettings, hrf, hum, State.call, State.log]

/-- C9: `init` completes normally exactly when `NewJSONSettings` returns no
error (the file was read and unmarshalled without error) and the `Login` that
follows returns no error.  When `NewJSONSettings` returns an error `init`
panics in the state `NewJSONSettings` left, with only `Cachedir` assigned
(from the read `s.Cachedir`):
no `NewPTPSearch`, `NewImageCache` or `Login` was called.  When the settings
load and `Login` fails with `e`, `init` panics with `e`. -/
theorem init_completes_iff (env : Env σ Jar G) (st st1 : State σ Jar G)
    (s : JSONSettings) (je le : Option GoError) (s2 : σ)
    (hnj : NewJSONSettings env st = ((s, je), st1))
    (hlg : env.Login
      (env.NewImageCache (env.settingsCachedir s)
        (env.NewPTPSearch s.PTP.Username s.PTP.Password s.PTP.Passkey
          s.PTP.Settings.MovieSource s.PTP.Settings.MovieResolution st1.world))
        = (le, s2)) :
    ((init env st).result = some () ↔ je = none ∧ le = none) ∧
    (je = none ↔
      (env.ReadFile "./settings.json" st.world).1.2 = none ∧
      (env.Unmarshal (env.ReadFile "./settings.json" st.world).1.1 JSONSettings.zero).2
        = none) ∧
    (∀ e, je = some e →
      init env st = .panicked (.str "Your settings.json file is not configured properly.")
        { st1 with Cachedir := env.settingsCachedir s } ∧
      (newEvents st (init env st).state).countP
        (fun e => e.isNewPTPSearch || e.isNewImageCache || e.isLogin) = 0) ∧
    (je = none → ∀ e, le = some e → (init env st).panic = some (.err e)) := by
  have hiff := NewJSONSettings_err_iff env st
  have hfr := (NewJSONSettings_events env st).2
  rw [hnj] at hiff hfr
  obtain ⟨evs, hevs, hio⟩ := hfr
  simp only at hiff hevs
  refine ⟨?_, hiff, ?_, ?_⟩
  · cases je <;> cases le <;> simp [init, hnj, hlg, State.call, Outcome.result]
  · intro e he
    subst he
    simp only [init, hnj, newEvents, Outcome.state, hevs, List.drop_left, true_and,
      List.countP_eq_zero]
    intro a ha
    rcases hio a ha with h | ⟨m, h⟩ <;> subst h <;>
      simp [Event.isNewPTPSearch, Event.isNewImageCache, Event.isLogin]
  · intro hj e he
    subst hj he
    simp [init, hnj, hlg, State.call, Outcome.panic]

/-- Witness of C9: the settings load and the first `Login` is refused. -/
theorem init_completes_iff_witness :
    (init (demoEnv false none none none none none) (demoState false)).panic
      = some (.err "bad credentials") :=
  (init_completes_iff (demoEnv false none none none none none) (demoState false)
    { Cachedir := "cache", world := false, trace := [.readFile "./settings.json"] }
    demoSettings none (some "bad credentials") false rfl rfl).2.2.2 rfl
      "bad credentials" rfl

theorem TraceExt.refl (d : String) (st : State σ Jar G) : TraceExt d st st :=
  ⟨[], by simp, by simp⟩

theorem TraceExt.trans {d : String} {a b c : State σ Jar G}
    (h1 : TraceExt d a b) (h2 : TraceExt d b c) : TraceExt d a c := by
  obtain ⟨e1, ht1, hd1⟩ := h1
  obtain ⟨e2, ht2, hd2⟩ := h2
  refine ⟨e1 ++ e2, by simp [ht2, ht1], ?_⟩
  intro e he
  rcases List.mem_append.mp he with h | h
  · exact hd1 e h
  · exact hd2 e h

theorem TraceExt.newEvents {d : String} {a b : State σ Jar G} (h : TraceExt d a b) :
    ∀ e ∈ newEvents a b, e.usesDir d := by
  obtain ⟨evs, ht, hd⟩ := h
  simpa [Broadcasthepopcorn.newEvents, ht] using hd

theorem ptp_search_view_frame (env : Env σ Jar G) (w : ResponseWriter) (r : Request)
    (st : State σ Jar G) :
    (ptp_search_view env w r st).state.2.Cachedir = st.Cachedir ∧
    TraceExt st.Cachedir st (ptp_search_view env w r st).state.2 := by
  unfold ptp_search_view ptp_search_view_tail
  simp only []
  repeat' split
  all_goals simp [Outcome.state, TraceExt, State.call, Event.usesDir]

theorem ptp_get_view_frame (env : Env σ Jar G) (w : ResponseWriter) (r : Request)
    (st : State σ Jar G) :
    (ptp_get_view env w r st).state.2.Cachedir = st.Cachedir ∧
    TraceExt st.Cachedir st (ptp_get_view env w r st).state.2 := by
  unfold ptp_get_view
  simp only []
  repeat' split
  all_goals simp [Outcome.state, TraceExt, State.call, State.log, Event.usesDir]

theorem image_view_frame (env : Env σ Jar G) (w : ResponseWriter) (r : Request)
    (st : State σ Jar G) :
    (image_view env w r st).state.2.Cachedir = st.Cachedir ∧
    TraceExt st.Cachedir st (image_view env w r st).state.2 := by
  unfold image_view
  simp only []
  repeat' split
  all_goals simp [Outcome.state, TraceExt, State.call, Event.usesDir]

theorem viewTemplate_frame (env : Env σ Jar G) (filename : String) (w : ResponseWriter)
    (st : State σ Jar G) :
    (viewTemplate env filename w st).state.2.Cachedir = st.Cachedir ∧
    TraceExt st.Cachedir st (viewTemplate env filename w st).state.2 := by
  unfold viewTemplate
  simp only []
  repeat' split
  all_goals simp [Outcome.state, TraceExt, State.call, Event.usesDir]

theorem ServeHTTP_frame (fn : appHandler σ Jar G) (w : ResponseWriter) (r : Request)
    (st : State σ Jar G)
    (hfn : (fn w r st).state.2.Cachedir = st.Cachedir ∧
      TraceExt st.Cachedir st (fn w r st).state.2) :
    (ServeHTTP fn w r st).state.2.Cachedir = st.Cachedir ∧
    TraceExt st.Cachedir st (ServeHTTP fn w r st).state.2 := by
  unfold ServeHTTP
  rcases hout : fn w r st with ⟨_ | e, w', st'⟩ | ⟨p, w', st'⟩
  · simpa [hout, Outcome.state] using hfn
  · rw [hout] at hfn
    simp only [Outcome.state] at hfn ⊢
    refine ⟨by simpa [State.log] using hfn.1, hfn.2.trans ⟨[.logPrintln e.Error], ?_, ?_⟩⟩
    · simp [State.log]
    · simp [Event.usesDir]
  · simpa [hout, Outcome.state] using hfn

theorem serve_frame (env : Env σ Jar G) (c : Call) (st : State σ Jar G) :
    (serve env c st).state.2.Cachedir = st.Cachedir ∧
    TraceExt st.Cachedir st (serve env c st).state.2 := by
  cases c with
  | index r => exact ServeHTTP_frame _ _ r st (viewTemplate_frame env _ _ st)
  | movies r => exact ServeHTTP_frame _ _ r st (viewTemplate_frame env _ _ st)
  | ptp_search r => exact ServeHTTP_frame _ _ r st (ptp_search_view_frame env _ r st)
  | ptp_get r => exact ServeHTTP_frame _ _ r st (ptp_get_view_frame env _ r st)
  | image r => exact ServeHTTP_frame _ _ r st (image_view_frame env _ r st)

theorem serveAll_frame (env : Env σ Jar G) (cs : List Call) (st : State σ Jar G) :
    (serveAll env cs st).Cachedir = st.Cachedir ∧
    TraceExt st.Cachedir st (serveAll env cs st) := by
  induction cs generalizing st with
  | nil => exact ⟨rfl, TraceExt.refl _ _⟩
  | cons c cs ih =>
    have h1 := serve_frame env c st
    have h2 := ih (serve env c st).state.2
    simp only [serveAll, List.foldl_cons] at h2 ⊢
    rw [h1.1] at h2
    exact ⟨h2.1, h1.2.trans h2.2⟩

theorem watch_frame (env : Env σ Jar G) (sig : Option Signal) (st : State σ Jar G) :
    TraceExt st.Cachedir st (watch env sig st).state := by
  unfold watch logFatal
  simp only []
  repeat' split
  all_goals simp [WatchOutcome.state, TraceExt, State.call, State.log, Event.usesDir]

theorem NewJSONSettings_loaded (env : Env σ Jar G) (st : State σ Jar G) (b : Bytes)
    (w1 : σ) (s : JSONSettings)
    (hread : env.ReadFile "./settings.json" st.world = ((b, none), w1))
    (hjson : env.Unmarshal b JSONSettings.zero = (s, none)) :
    NewJSONSettings env st = ((s, none), st.call (.readFile "./settings.json") w1) := by
  simp [NewJSONSettings, hread, hjson]

theorem init_returned (env : Env σ Jar G) (st0 st0' st1 : State σ Jar G)
    (s : JSONSettings)
    (hload : NewJSONSettings env st0 = ((s, none), st0'))
    (hinit : init env st0 = .returned () st1) :
    st1.Cachedir = env.settingsCachedir s ∧
    st1.trace = st0'.trace ++
      [.newPTPSearch s.PTP.Username s.PTP.Password s.PTP.Passkey
          s.PTP.Settings.MovieSource s.PTP.Settings.MovieResolution,
        .newImageCache (env.settingsCachedir s), .login] := by
  rcases hlg : env.Login
      (env.NewImageCache (env.settingsCachedir s)
        (env.NewPTPSearch s.PTP.Username s.PTP.Password s.PTP.Passkey
          s.PTP.Settings.MovieSource s.PTP.Settings.MovieResolution st0'.world))
    with ⟨le, s2⟩
  cases le <;> simp [init, hload, hlg, State.call] at hinit
  subst hinit
  simp

/-- Whatever line 42 yields, it is used consistently: when `settings.json` is read and
unmarshalled into `s` and startup completes, the value line 42 assigned to
`Cachedir` is the directory given to `NewImageCache`, the destination given to
every `NewPTPGet` and the path given to `os.RemoveAll` by `watch`, however many
requests were served in between; no handler changes `Cachedir`. -/
theorem Cachedir_single_path (env : Env σ Jar G) (st0 st1 : State σ Jar G)
    (b : Bytes) (w1 : σ) (s : JSONSettings) (cs : List Call) (sig : Signal)
    (hread : env.ReadFile "./settings.json" st0.world = ((b, none), w1))
    (hjson : env.Unmarshal b JSONSettings.zero = (s, none))
    (hinit : init env st0 = .returned () st1) :
    st1.Cachedir = env.settingsCachedir s ∧
    (newEvents st0 st1).filter Event.isNewImageCache
      = [.newImageCache (env.settingsCachedir s)] ∧
    (∀ c st, (serve env c st).state.2.Cachedir = st.Cachedir) ∧
    (serveAll env cs st1).Cachedir = env.settingsCachedir s ∧
    (∀ e ∈ newEvents st0 (watch env (some sig) (serveAll env cs st1)).state,
      e.usesDir (env.settingsCachedir s)) ∧
    (newEvents (serveAll env cs st1)
        (watch env (some sig) (serveAll env cs st1)).state).filter Event.isRemoveAll
      = [.removeAll (env.settingsCachedir s)] := by
  have hload := NewJSONSettings_loaded env st0 b w1 s hread hjson
  obtain ⟨hdir, htrace⟩ := init_returned env st0 _ st1 s hload hinit
  have hset := (NewJSONSettings_events env st0).2
  rw [hload] at hset
  obtain ⟨evs, hevs, hio⟩ := hset
  simp only at hevs
  have hserve := serveAll_frame env cs st1
  have hwatch := watch_frame env (some sig) (serveAll env cs st1)
  rw [hserve.1] at hwatch
  rw [hdir] at hserve hwatch
  have hstart : TraceExt (env.settingsCachedir s) st0 st1 := by
    refine ⟨evs ++ [.newPTPSearch s.PTP.Username s.PTP.Password s.PTP.Passkey
          s.PTP.Settings.MovieSource s.PTP.Settings.MovieResolution,
        .newImageCache (env.settingsCachedir s), .login], by simp [htrace, hevs], ?_⟩
    intro e he
    rcases List.mem_append.mp he with h | h
    · rcases hio e h with h | ⟨m, h⟩ <;> subst h <;> simp [Event.usesDir]
    · simp at h
      rcases h with h | h | h <;> subst h <;> simp [Event.usesDir]
  refine ⟨hdir, ?_, fun c st => (serve_frame env c st).1, hserve.1, ?_, ?_⟩
  · have hnone : evs.filter Event.isNewImageCache = [] := by
      rw [List.filter_eq_nil_iff]
      intro e he
      rcases hio e he with h | ⟨m, h⟩ <;> subst h <;> simp [Event.isNewImageCache]
    simp [newEvents, htrace, hevs, List.filter_append, hnone, Event.isNewImageCache]
  · exact ((hstart.trans hserve.2).trans hwatch).newEvents
  · rcases hrm : env.RemoveAll (env.settingsCachedir s) (serveAll env cs st1).world
      with ⟨re, s1⟩
    have hw := hserve.1
    cases re <;>
      simp [watch, logFatal, hw, hrm, State.call, State.log, newEvents,
        WatchOutcome.state, Event.isRemoveAll]

/-- C10 (the code on every settings file): the value `init` leaves in
`Cachedir` is what the read `s.Cachedir` of line 42 yields on the settings
`NewJSONSettings` returned, a field `JSONSettings` does not declare; the
declared field `CacheDir` (JSON key `cache_dir`) is read nowhere. -/
theorem init_Cachedir_reads_undeclared_field (env : Env σ Jar G) (st : State σ Jar G) :
    (init env st).state.Cachedir = env.settingsCachedir (NewJSONSettings env st).1.1 := by
  rcases hnj : NewJSONSettings env st with ⟨⟨s, je⟩, st1⟩
  rcases hlg : env.Login
      (env.NewImageCache (env.settingsCachedir s)
        (env.NewPTPSearch s.PTP.Username s.PTP.Password s.PTP.Passkey
          s.PTP.Settings.MovieSource s.PTP.Settings.MovieResolution st1.world))
    with ⟨le, s2⟩
  cases je <;> cases le <;> simp [init, hnj, hlg, State.call, Outcome.state]

/-- Counterexample to C1: the request `imdbID=tt1&a=%zz` carries `imdbID`, yet
`ptp_search_view` panics at `query["imdbID"][0]` and has called `CheckLogin`
zero times, not once. -/
theorem ptp_search_view_login_protocol_counterexample :
    (malformedRequest "imdbID" "tt1").Form.index "imdbID" = ["tt1"] ∧
    (ptp_search_view (demoEnv true none none none none none) ResponseWriter.fresh
      (malformedRequest "imdbID" "tt1") (demoState false)).panic
        = some (.indexOutOfRange 0 0) ∧
    ¬ ((newEvents (demoState false)
      (ptp_search_view (demoEnv true none none none none none) ResponseWriter.fresh
        (malformedRequest "imdbID" "tt1") (demoState false)).state.2).countP
          Event.isCheckLogin = 1) := by
  refine ⟨by decide, rfl, ?_⟩
  simp [ptp_search_view, checkQuery, malformedRequest, Values.index, newEvents,
    Outcome.state, demoState]

/-- Counterexample to C2: on the request `imdbID=tt1&a=%zz` with a valid
session (`CheckLogin` true) the handler does not return at all and `Get` is
never called, so none of the three outcomes occurs. -/
theorem ptp_search_view_outcome_counterexample :
    (malformedRequest "imdbID" "tt1").Form.index "imdbID" = ["tt1"] ∧
    ((demoEnv true none none none none none).CheckLogin (demoState true).world).1.1
      = true ∧
    (ptp_search_view (demoEnv true none none none none none) ResponseWriter.fresh
      (malformedRequest "imdbID" "tt1") (demoState true)).result = none ∧
    ¬ ((newEvents (demoState true)
      (ptp_search_view (demoEnv true none none none none none) ResponseWriter.fresh
        (malformedRequest "imdbID" "tt1") (demoState true)).state.2).filter Event.isGet
          = [.get "tt1"]) := by
  refine ⟨by decide, rfl, rfl, ?_⟩
  simp [ptp_search_view, checkQuery, malformedRequest, Values.index, newEvents,
    Outcome.state, demoState]

/-- Counterexample to C5: the request `id=1&authkey=a&passkey=p&x=%zz` carries
the three arguments, yet `ptp_get_view` returns the "No URL arguments passed."
`appError` with the decoding error and calls nothing: no client is built and
`Download` is not called, although `Download` would have returned no error. -/
theorem ptp_get_view_download_counterexample :
    ptp_get_view (demoEnv true none none none none none) ResponseWriter.fresh
        { Form := [("id", ["1"]), ("authkey", ["a"]), ("passkey", ["p"])],
          ParseFormErr := some "invalid URL escape \"%zz\"" } (demoState true)
      = .returned
          (some ⟨"invalid URL escape \"%zz\"",
            "\x7b\"Result\":\"No URL arguments passed.\"\x7d"⟩)
          (ResponseWriter.fresh.HeaderSet "Content-Type" "application/json",
            demoState true) ∧
    newEvents (demoState true)
      (ptp_get_view (demoEnv true none none none none none) ResponseWriter.fresh
        { Form := [("id", ["1"]), ("authkey", ["a"]), ("passkey", ["p"])],
          ParseFormErr := some "invalid URL escape \"%zz\"" } (demoState true)).state.2
      = [] := by
  constructor <;>
    simp [ptp_get_view, checkQuery, newEvents, Outcome.state, demoState, jsonResult]

/-- Counterexample to C6: the request `url=u&a=%zz` carries `url`, yet
`image_view` panics at `query["url"][0]` and `cache.Get` is never called. -/
theorem image_view_cache_only_counterexample :
    (malformedRequest "url" "u").Form.index "url" = ["u"] ∧
    (image_view (demoEnv true none none none none none) ResponseWriter.fresh
      (malformedRequest "url" "u") (demoState false)).panic
        = some (.indexOutOfRange 0 0) ∧
    ¬ (newEvents (demoState false)
      (image_view (demoEnv true none none none none none) ResponseWriter.fresh
        (malformedRequest "url" "u") (demoState false)).state.2 = [.cacheGet "u"]) := by
  refine ⟨by decide, rfl, ?_⟩
  simp [image_view, checkQuery, malformedRequest, Values.index, newEvents,
    Outcome.state, demoState]

end Theorems







end Broadcasthepopcorn
